import Mathlib

/-!
Shallow embedding of the matchmaking server's matching engine and session
lifecycle (src/services/QueueService.ts, src/services/SessionService.ts,
src/index.ts), together with theorems settling the specification claims.

Conventions: JS `Date.now()` timestamps are `Nat` milliseconds; JS
`undefined`/`null` string fields are `Option String`; JS `Map`s are
functions `String → Option _`; the socket.io server's live-socket table
(`io.sockets.sockets`) is abstracted as a predicate `live : String → Bool`.
-/

namespace Matchmaking

/-- `gender ∈ {male, female}` (QueueService.ts line 9). -/
inductive Gender | male | female
deriving DecidableEq, Repr

/-- `tier ∈ {FREE, GOLD, DIAMOND}` (QueueService.ts line 11). -/
inductive Tier | FREE | GOLD | DIAMOND
deriving DecidableEq, Repr

/-- `mode ∈ {random, video}` (QueueService.ts line 12). -/
inductive Mode | random | video
deriving DecidableEq, Repr

/-- `preferences = {gender?, location?}` (QueueService.ts lines 13-16). -/
structure Preferences where
  gender : Option Gender
  location : Option String
deriving DecidableEq, Repr

/-- A queued user record (QueueService.ts lines 6-19).  `widenStage` is 0
(strict), 1 (ignore location) or 2 (also ignore gender); we embed it as
`Nat`. -/
structure QueueUser where
  socketId : String
  uid : String
  gender : Gender
  location : Option String
  tier : Tier
  mode : Mode
  preferences : Preferences
  joinedAt : Nat
  widenStage : Nat
deriving DecidableEq, Repr

/-- The two queue partitions (QueueService.ts lines 22-25). -/
structure QueueState where
  male : List QueueUser
  female : List QueueUser
deriving DecidableEq, Repr

/-- JS truthiness of an optional string: `undefined` and `""` are falsy.
Used where the source guards on `user.preferences.location &&`. -/
def strSet : Option String → Bool
  | none => false
  | some s => s ≠ ""

/-- The opposite gender, from `user.gender === 'male' ? 'female' : 'male'`
(QueueService.ts line 81). -/
def oppositeGender : Gender → Gender
  | Gender.male => Gender.female
  | Gender.female => Gender.male

/-- The user's target gender computed at the head of `findMatch`
(QueueService.ts lines 75-82): the preference if set, else the opposite
gender while `widenStage < 2`, else any (`none`). -/
def userTargetGender (user : QueueUser) : Option Gender :=
  match user.preferences.gender with
  | some g => some g
  | none => if user.widenStage < 2 then some (oppositeGender user.gender) else none

/-- `candidate.preferences.gender || (candidate.widenStage >= 2 ? 'any' :
opposite)` (QueueService.ts line 107). -/
def candidateWants (c : QueueUser) : Option Gender :=
  match c.preferences.gender with
  | some g => some g
  | none => if c.widenStage ≥ 2 then none else some (oppositeGender c.gender)

/-- Whether a target-gender value (`none` = `'any'`) accepts a gender:
encodes the guards `targetGender !== 'any' && candidate.gender !==
targetGender` and `candidateWants !== 'any' && candidateWants !==
user.gender` (QueueService.ts lines 104, 108). -/
def acceptsGender : Option Gender → Gender → Bool
  | none, _ => true
  | some g, g' => g == g'

/-- The candidate filter executed by `findMatch`'s `findIndex`
(QueueService.ts lines 91-121), as a conjunction of the sequential
early-`false` checks.  `tg` is the precomputed `targetGender`; `live`
abstracts `socket.server.sockets.sockets.get`. -/
def candidateOk (live : String → Bool) (user : QueueUser) (tg : Option Gender)
    (c : QueueUser) : Bool :=
  c.socketId ≠ user.socketId &&
  c.uid ≠ user.uid &&
  live c.socketId &&
  acceptsGender tg c.gender &&
  acceptsGender (candidateWants c) user.gender &&
  !(strSet user.preferences.location && user.widenStage < 1 &&
      c.location ≠ user.preferences.location) &&
  !(strSet c.preferences.location && c.widenStage < 1 &&
      c.location ≠ c.preferences.location)

/-- The snapshot array scanned by `findIndex` (QueueService.ts
lines 85-88). -/
def potentialMatches (q : QueueState) : Option Gender → List QueueUser
  | some Gender.male => q.male
  | some Gender.female => q.female
  | none => q.male ++ q.female

/-- The candidate selected by `findMatch` (QueueService.ts lines 72-124):
the first element of the target partition passing `candidateOk`, if any. -/
def findMatchResult (live : String → Bool) (q : QueueState)
    (user : QueueUser) : Option QueueUser :=
  (potentialMatches q (userTargetGender user)).find?
    (candidateOk live user (userTargetGender user))

/-- The per-user widening mutation of one tick (QueueService.ts
lines 227-240): stage 0→1 after 5 s, stage 1→2 after 10 s unless the tier
is DIAMOND.  `now - joinedAt` under `Nat` truncation agrees with the JS
comparisons `waitingTime > 5000` etc. for all inputs. -/
def widenStep (now : Nat) (u : QueueUser) : QueueUser :=
  let waitingTime := now - u.joinedAt
  let u1 := if 5000 < waitingTime ∧ u.widenStage = 0
    then { u with widenStage := 1 } else u
  if 10000 < waitingTime ∧ u1.widenStage = 1 ∧ u1.tier ≠ Tier.DIAMOND
    then { u1 with widenStage := 2 } else u1

/-- The stage a user holds after being observed by ticks at the given
times, starting from their state at join. -/
def stageAfterTicks (u : QueueUser) (ts : List Nat) : QueueUser :=
  ts.foldl (fun v t => widenStep t v) u

/-- The stage the specification derives from the wait alone: 0 up to
5000 ms, 1 up to 10000 ms, then 2 unless the tier is DIAMOND. -/
def specStage (now : Nat) (u : QueueUser) : Nat :=
  if now - u.joinedAt ≤ 5000 then 0
  else if now - u.joinedAt ≤ 10000 then 1
  else if u.tier = Tier.DIAMOND then 1 else 2

/-- The single event `processWidening` can emit (QueueService.ts
lines 249-252): `no_match_found {reason, waitedMs}` to a socket. -/
inductive QueueEvent
  | noMatchFound (socketId : String) (reason : String) (waitedMs : Nat)
deriving DecidableEq, Repr

/-- `waitingTime > 30000` (QueueService.ts line 243). -/
def timedOut (now : Nat) (u : QueueUser) : Bool :=
  30000 < now - u.joinedAt

/-- Socket ids whose entries a phase of `checkQueue` removes via
`removeFromQueue` (QueueService.ts line 256). -/
def remIds (now : Nat) (l : List QueueUser) : List String :=
  (l.filter (timedOut now)).map (·.socketId)

/-- The `no_match_found` emissions of a phase of `checkQueue`
(QueueService.ts lines 243-253): one per timed-out user whose socket is
still live. -/
def phaseEvents (now : Nat) (live : String → Bool)
    (l : List QueueUser) : List QueueEvent :=
  (l.filter (fun u => timedOut now u && live u.socketId)).map
    (fun u => QueueEvent.noMatchFound u.socketId "timeout" (now - u.joinedAt))

/-- The male snapshot after its widening pass. -/
def maleWidened (now : Nat) (q : QueueState) : List QueueUser :=
  q.male.map (widenStep now)

/-- Socket ids removed during the male phase of `checkQueue`. -/
def remMale (now : Nat) (q : QueueState) : List String :=
  remIds now (maleWidened now q)

/-- The female array as the female phase of `checkQueue` sees it: the
original snapshot minus the male-phase removals (which
`removeFromQueue` applied to both partitions). -/
def femaleAfterMale (now : Nat) (q : QueueState) : List QueueUser :=
  q.female.filter (fun u => !((remMale now q).contains u.socketId))

/-- The female-phase snapshot after its own widening pass. -/
def femaleWidened (now : Nat) (q : QueueState) : List QueueUser :=
  (femaleAfterMale now q).map (widenStep now)

/-- Socket ids removed during the female phase of `checkQueue`. -/
def remFemale (now : Nat) (q : QueueState) : List String :=
  remIds now (femaleWidened now q)

/-- One run of `processWidening` (QueueService.ts lines 221-263).  The
male snapshot is fully iterated (widened, with timed-out entries emitting
and removing by socket id from both partitions); the female phase then
iterates the female array as already filtered by the male-phase removals.
Removals rebind the queue arrays, so both phases run over their snapshot
in full. -/
def processWidening (now : Nat) (live : String → Bool)
    (q : QueueState) : QueueState × List QueueEvent :=
  ({ male := (maleWidened now q).filter
       (fun u => !((remMale now q ++ remFemale now q).contains u.socketId)),
     female := (femaleWidened now q).filter
       (fun u => !((remMale now q ++ remFemale now q).contains u.socketId)) },
   phaseEvents now live (maleWidened now q) ++
     phaseEvents now live (femaleWidened now q))

/-- Player role in a room (SessionService.ts line 17). -/
inductive Role | A | B
deriving DecidableEq, Repr

/-- A party of a room: `{uid, socketId}` (SessionService.ts line 6). -/
structure Player where
  uid : String
  socketId : String
deriving DecidableEq, Repr

/-- A pending signaling room (SessionService.ts lines 4-12). -/
structure RoomData where
  roomId : String
  playerA : Player
  playerB : Player
  gameReady : Bool
  videoReady : Bool
  expectedServices : List String
  createdAt : Nat
deriving DecidableEq, Repr

/-- An established session entry, one per uid (SessionService.ts
lines 14-18).  `opponentId` stores the opponent's uid. -/
structure SessionData where
  roomId : String
  opponentId : String
  role : Role
deriving DecidableEq, Repr

/-- The mutable state of `SessionService` (SessionService.ts
lines 85-96): pending rooms (a `Map`, modelled as an insertion-ordered
list), the established-session cache, and the two socket-registry maps. -/
structure SessionState where
  activeRooms : List RoomData
  sessionCache : String → Option SessionData
  socketToUid : String → Option String
  uidToSocket : String → Option String

/-- Point update of a string-keyed map (`Map.prototype.set`). -/
def mapSet (m : String → Option String) (k v : String) :
    String → Option String :=
  fun x => if x = k then some v else m x

/-- Point deletion from a string-keyed map (`Map.prototype.delete`). -/
def mapDel (m : String → Option String) (k : String) :
    String → Option String :=
  fun x => if x = k then none else m x

/-- The service state with both registry maps empty and no rooms or
sessions. -/
def emptyState : SessionState :=
  { activeRooms := []
    sessionCache := fun _ => none
    socketToUid := fun _ => none
    uidToSocket := fun _ => none }

/-- `registerSocket(socketId, uid)` (SessionService.ts lines 102-112):
writes the forward binding and overwrites the reverse binding. -/
def registerSocket (st : SessionState) (socketId uid : String) :
    SessionState :=
  { st with
    socketToUid := mapSet st.socketToUid socketId uid
    uidToSocket := mapSet st.uidToSocket uid socketId }

/-- The socket-registry part of `handleDisconnect(socketId)`
(SessionService.ts lines 246-259): drop the forward binding; drop the
reverse binding only if it still points at the departing socket. -/
def handleDisconnect (st : SessionState) (socketId : String) :
    SessionState :=
  match st.socketToUid socketId with
  | none => st
  | some uid =>
    { st with
      socketToUid := mapDel st.socketToUid socketId
      uidToSocket :=
        if st.uidToSocket uid = some socketId
          then mapDel st.uidToSocket uid else st.uidToSocket }

/-- `getSocketIdsForUser(uid)` (SessionService.ts lines 114-117). -/
def getSocketIdsForUser (st : SessionState) (uid : String) : List String :=
  match st.uidToSocket uid with
  | some socketId => [socketId]
  | none => []

/-- A register or unregister call on the socket registry. -/
inductive RegOp
  | reg (socketId uid : String)
  | unreg (socketId : String)
deriving DecidableEq, Repr

/-- Apply a sequence of registry calls (`registerSocket` /
`handleDisconnect`) left to right. -/
def applyOps (st : SessionState) : List RegOp → SessionState
  | [] => st
  | RegOp.reg s u :: rest => applyOps (registerSocket st s u) rest
  | RegOp.unreg s :: rest => applyOps (handleDisconnect st s) rest

/-- A trace in which no socket id is ever registered under two different
uids (every socket belongs to a single connection in the running
system). -/
def wellFormedOps (ops : List RegOp) : Prop :=
  ∀ s u u', RegOp.reg s u ∈ ops → RegOp.reg s u' ∈ ops → u = u'

/-- Spec-side registry abstraction: for each uid, the stack of its
currently registered sockets, newest first; a `reg` pushes the socket onto
its uid's stack, an `unreg` removes the socket everywhere.  The head of a
uid's stack is thus "the most recently registered socketId that has not
yet unregistered" in the spec's words. -/
def specStacks : (String → List String) → List RegOp → String → List String
  | st, [], u => st u
  | st, RegOp.reg s u :: rest, u' =>
    specStacks (fun x => if x = u then s :: (st u).filter (· ≠ s) else st x)
      rest u'
  | st, RegOp.unreg s :: rest, u' =>
    specStacks (fun x => (st x).filter (· ≠ s)) rest u'

/-- The spec's binding for a uid after a trace: the most recently
registered socket of that uid that has not yet unregistered, if any. -/
def specBinding (ops : List RegOp) (u : String) : Option String :=
  (specStacks (fun _ => []) ops u).head?

/-- `expectedServices` as built by `createRoom` (SessionService.ts
lines 149-152): always `['game']`, plus `'video'` when the mode is
`video`. -/
def mkExpectedServices (mode : Mode) : List String :=
  if mode = Mode.video then ["game", "video"] else ["game"]

/-- `connection_stable` service tag (SessionService.ts line 189). -/
inductive Service | game | video
deriving DecidableEq, Repr

/-- The readiness flag update of `handleConnectionStable`
(SessionService.ts lines 193-194). -/
def setServiceReady (room : RoomData) : Service → RoomData
  | Service.game => { room with gameReady := true }
  | Service.video => { room with videoReady := true }

/-- The finalization condition of `handleConnectionStable`
(SessionService.ts lines 199-202): each service in `expectedServices`
must have reported ready; a service outside the list is treated as
satisfied. -/
def allExpectedReady (room : RoomData) : Bool :=
  (if room.expectedServices.contains "game" then room.gameReady else true) &&
  (if room.expectedServices.contains "video" then room.videoReady else true)

/-- Events emitted by the session lifecycle paths modelled here. -/
inductive SessionEvent
  /-- `match_found` (SessionService.ts lines 167-184, 269-276, 310-318).
  `opponentUid` is `none` where the source emit has no such field (the
  established-session reconnection branch). -/
  | matchFound (target roomId : String) (role : Role) (opponentId : String)
      (opponentUid : Option String) (isInitiator isReconnection : Bool)
  /-- `opponent_reconnected {message}` (SessionService.ts
  lines 286-288). -/
  | opponentReconnected (target message : String)
  /-- `match_skipped` (SessionService.ts lines 347, 363-364, 374). -/
  | matchSkipped (target : String)
  /-- `session_established {roomId}` (SessionService.ts line 239). -/
  | sessionEstablished (target roomId : String)
deriving DecidableEq, Repr

/-- The pending-room scan of `handleReconnection` (SessionService.ts
lines 296-322): find the first room in which the uid is a party, update
that party's stored socket id, re-register the socket, and re-emit
`match_found` with the opponent's stored socket id. -/
def reconnectRooms (st : SessionState) (sockId uid : String) :
    List RoomData → SessionState × List SessionEvent
  | [] => (st, [])
  | room :: rest =>
    if room.playerA.uid = uid ∨ room.playerB.uid = uid then
      let isPlayerA := room.playerA.uid = uid
      let opponent := if isPlayerA then room.playerB else room.playerA
      let role := if isPlayerA then Role.A else Role.B
      let room' := if isPlayerA
        then { room with playerA := { room.playerA with socketId := sockId } }
        else { room with playerB := { room.playerB with socketId := sockId } }
      let st' := registerSocket
        { st with activeRooms :=
            st.activeRooms.map (fun r => if r.roomId = room.roomId then room' else r) }
        sockId uid
      (st', [SessionEvent.matchFound sockId room.roomId role opponent.socketId
        (some opponent.uid) isPlayerA true])
    else reconnectRooms st sockId uid rest

/-- `handleReconnection(socket, uid)` (SessionService.ts lines 261-324).
In the established-session branch the emitted `match_found` carries
`session.opponentId` (the opponent's uid) as `opponentId` and no
`opponentUid` field, and each of the opponent's registered sockets is
sent `opponent_reconnected` with a fixed message. -/
def handleReconnection (st : SessionState) (sockId uid : String) :
    SessionState × List SessionEvent :=
  match st.sessionCache uid with
  | some session =>
    let ev := SessionEvent.matchFound sockId session.roomId session.role
      session.opponentId none (session.role == Role.A) true
    let oppEvs := (getSocketIdsForUser st session.opponentId).map
      (fun sid => SessionEvent.opponentReconnected sid "Opponent is back online")
    (st, ev :: oppEvs)
  | none => reconnectRooms st sockId uid st.activeRooms

/-- The room predicate of `handleSkipMatch`'s active-room scan
(SessionService.ts lines 358-359). -/
def skipRoomHit (socketId : String) (uid : Option String)
    (room : RoomData) : Bool :=
  room.playerA.socketId == socketId || room.playerB.socketId == socketId ||
    (match uid with
     | some u => room.playerA.uid == u || room.playerB.uid == u
     | none => false)

/-- The established-session branch of `handleSkipMatch`
(SessionService.ts lines 335-354): when the socket's uid has a cached
session, notify the currently registered sockets of both parties and
delete both session entries.  Returns the updated state, the emissions
and the `found` flag. -/
def skipSessionPart (st : SessionState) (socketId : String) :
    SessionState × List SessionEvent × Bool :=
  match st.socketToUid socketId with
  | some uid =>
    match st.sessionCache uid with
    | some session =>
      ({ st with sessionCache := fun x =>
          if x = uid ∨ x = session.opponentId then none
          else st.sessionCache x },
       (getSocketIdsForUser st uid ++
          getSocketIdsForUser st session.opponentId).map
         SessionEvent.matchSkipped,
       true)
    | none => (st, [], false)
  | none => (st, [], false)

/-- `handleSkipMatch(socketId)` (SessionService.ts lines 330-376): tear
down an established session of the socket's uid (notifying the currently
registered sockets of both parties), then the first pending room hit by
socket id or uid (notifying the room's stored sockets); only when neither
was found is `match_skipped` sent to the requesting socket itself. -/
def handleSkipMatch (st : SessionState) (socketId : String) :
    SessionState × List SessionEvent :=
  let p := skipSessionPart st socketId
  match p.1.activeRooms.find? (skipRoomHit socketId (st.socketToUid socketId)) with
  | some room =>
    ({ p.1 with activeRooms :=
        p.1.activeRooms.filter (fun r => r.roomId ≠ room.roomId) },
     p.2.1 ++ [SessionEvent.matchSkipped room.playerA.socketId,
               SessionEvent.matchSkipped room.playerB.socketId])
  | none =>
    if p.2.2 then (p.1, p.2.1)
    else (p.1, p.2.1 ++ [SessionEvent.matchSkipped socketId])

/-- `getOpponentUid(uid)` (SessionService.ts lines 407-421): the
established session's stored opponent, else the other party of the first
pending room containing the uid. -/
def getOpponentUid (st : SessionState) (uid : String) : Option String :=
  match st.sessionCache uid with
  | some session => some session.opponentId
  | none =>
    st.activeRooms.findSome? (fun room =>
      if room.playerA.uid = uid then some room.playerB.uid
      else if room.playerB.uid = uid then some room.playerA.uid
      else none)

/-- The six signaling frame kinds relayed by index.ts. -/
inductive SigKind
  | offer | answer | iceCandidate | videoOffer | videoAnswer
  | videoIceCandidate
deriving DecidableEq, Repr

/-- The envelope fields the router reads from an inbound frame: the
optional direct socket target `to` and the optional `targetUid`
(index.ts lines 173, 210, ...). -/
structure Frame where
  toSocket : Option String
  targetUid : Option String
deriving DecidableEq, Repr

/-- One relayed emission: the frame kind, the socket it is sent to, the
stamped `from` (the sender's socket id) and, for offers, `fromUid`. -/
structure SigEmit where
  kind : SigKind
  target : String
  fromSocket : String
  fromUid : Option String
deriving DecidableEq, Repr

/-- The shared relay tail used after target resolution: emit to every
registered socket of the target uid. -/
def relayToUid (st : SessionState) (kind : SigKind) (sender : String)
    (fromUid : Option String) (targetUid : String) : List SigEmit :=
  (getSocketIdsForUser st targetUid).map
    (fun sid => { kind := kind, target := sid, fromSocket := sender,
                  fromUid := fromUid })

/-- `targetUid` after the fallback `if (!targetUid) targetUid =
getOpponentUid(uid)` (index.ts lines 191-194 and analogues). -/
def resolveTargetUid (st : SessionState) (uid : String)
    (f : Frame) : Option String :=
  match f.targetUid with
  | some t => some t
  | none => getOpponentUid st uid

/-- The `offer` handler (index.ts lines 172-207): drop on loopback, else
direct `to` routing (stamping `from` and `fromUid`), else relay to the
resolved target uid's sockets. -/
def handleOffer (st : SessionState) (sender uid : String)
    (f : Frame) : List SigEmit :=
  if f.targetUid = some uid then []
  else match f.toSocket with
    | some t => [{ kind := SigKind.offer, target := t, fromSocket := sender,
                   fromUid := some uid }]
    | none =>
      match resolveTargetUid st uid f with
      | some t => relayToUid st SigKind.offer sender (some uid) t
      | none => []

/-- The `answer` handler (index.ts lines 209-235): like `offer` but
without `fromUid`. -/
def handleAnswer (st : SessionState) (sender uid : String)
    (f : Frame) : List SigEmit :=
  if f.targetUid = some uid then []
  else match f.toSocket with
    | some t => [{ kind := SigKind.answer, target := t, fromSocket := sender,
                   fromUid := none }]
    | none =>
      match resolveTargetUid st uid f with
      | some t => relayToUid st SigKind.answer sender none t
      | none => []

/-- The `ice-candidate` handler (index.ts lines 237-260). -/
def handleIceCandidate (st : SessionState) (sender uid : String)
    (f : Frame) : List SigEmit :=
  if f.targetUid = some uid then []
  else match f.toSocket with
    | some t => [{ kind := SigKind.iceCandidate, target := t,
                   fromSocket := sender, fromUid := none }]
    | none =>
      match resolveTargetUid st uid f with
      | some t => relayToUid st SigKind.iceCandidate sender none t
      | none => []

/-- The `video-offer` handler (index.ts lines 263-292): loopback check,
then direct `to` routing, then uid relay.  The final `io.to(to)` fallback
is reachable only with `to` absent, where it addresses no socket, so it
emits nothing. -/
def handleVideoOffer (st : SessionState) (sender uid : String)
    (f : Frame) : List SigEmit :=
  if f.targetUid = some uid then []
  else match f.toSocket with
    | some t => [{ kind := SigKind.videoOffer, target := t,
                   fromSocket := sender, fromUid := some uid }]
    | none =>
      match resolveTargetUid st uid f with
      | some t => relayToUid st SigKind.videoOffer sender (some uid) t
      | none => []

/-- The `video-answer` handler (index.ts lines 294-322).  Its first
branch relays to the target uid's sockets whenever `to` is absent and
`targetUid` is present, and it runs BEFORE the loopback check
`targetUid === socket.user?.uid`; the remaining cases check loopback,
then relay to the resolved uid, falling back to direct `to` routing. -/
def handleVideoAnswer (st : SessionState) (sender uid : String)
    (f : Frame) : List SigEmit :=
  match f.toSocket, f.targetUid with
  | none, some t => relayToUid st SigKind.videoAnswer sender none t
  | _, _ =>
    if f.targetUid = some uid then []
    else
      match resolveTargetUid st uid f with
      | some t => relayToUid st SigKind.videoAnswer sender none t
      | none =>
        match f.toSocket with
        | some t => [{ kind := SigKind.videoAnswer, target := t,
                       fromSocket := sender, fromUid := none }]
        | none => []

/-- The `video-ice-candidate` handler (index.ts lines 324-342): loopback
check, uid relay, direct `to` fallback (it has no priority `to`
branch). -/
def handleVideoIceCandidate (st : SessionState) (sender uid : String)
    (f : Frame) : List SigEmit :=
  if f.targetUid = some uid then []
  else
    match resolveTargetUid st uid f with
    | some t => relayToUid st SigKind.videoIceCandidate sender none t
    | none =>
      match f.toSocket with
      | some t => [{ kind := SigKind.videoIceCandidate, target := t,
                     fromSocket := sender, fromUid := none }]
      | none => []

/-! ## Theorems -/

/-- The two textually different gender-target computations of `findMatch`
(the user-side one at lines 75-82 and the candidate-side one at line 107
of QueueService.ts) compute the same function. -/
theorem candidateWants_eq (c : QueueUser) :
    candidateWants c = userTargetGender c := by
  unfold candidateWants userTargetGender
  cases c.preferences.gender with
  | some g => rfl
  | none =>
    by_cases h : c.widenStage < 2
    · simp [h, Nat.not_le.mpr h]
    · simp [h]

/-- C1: every pair `(U, C)` selected by `findMatch` satisfies the
reciprocal gender rule: `userTarget(U)` accepts `C.gender` and
`userTarget(C)` accepts `U.gender`, where `userTarget(X)` is
`X.preferences.gender` if set, else the opposite of `X.gender` when
`X.widenStage < 2`, else any gender. -/
theorem findMatch_reciprocal_gender (live : String → Bool) (q : QueueState)
    (u c : QueueUser) (h : findMatchResult live q u = some c) :
    acceptsGender (userTargetGender u) c.gender = true ∧
    acceptsGender (userTargetGender c) u.gender = true := by
  have hp : candidateOk live u (userTargetGender u) c = true :=
    List.find?_some h
  unfold candidateOk at hp
  simp only [Bool.and_eq_true] at hp
  exact ⟨hp.1.1.1.2, candidateWants_eq c ▸ hp.1.1.2⟩

/-- Sample GOLD female user preferring males (spec scenario 1). -/
def aliceU : QueueUser :=
  { socketId := "sock_alice", uid := "alice", gender := Gender.female,
    location := none, tier := Tier.GOLD, mode := Mode.random,
    preferences := { gender := some Gender.male, location := none },
    joinedAt := 0, widenStage := 0 }

/-- Sample FREE male user with no preferences (spec scenario 1). -/
def bobU : QueueUser :=
  { socketId := "sock_bob", uid := "bob", gender := Gender.male,
    location := none, tier := Tier.FREE, mode := Mode.random,
    preferences := { gender := none, location := none },
    joinedAt := 0, widenStage := 0 }

/-- Witness for C1: with `alice` searching and `bob` queued, `findMatch`
selects `bob` and the reciprocal gender rule holds for the pair. -/
theorem findMatch_reciprocal_gender_witness :
    acceptsGender (userTargetGender aliceU) bobU.gender = true ∧
    acceptsGender (userTargetGender bobU) aliceU.gender = true :=
  findMatch_reciprocal_gender (fun _ => true)
    { male := [bobU], female := [] } aliceU bobU (by rfl)

/-- `widenStep` never changes `joinedAt`. -/
theorem widenStep_joinedAt (now : Nat) (u : QueueUser) :
    (widenStep now u).joinedAt = u.joinedAt := by
  unfold widenStep
  dsimp only
  split_ifs <;> rfl

/-- `widenStep` never changes `tier`. -/
theorem widenStep_tier (now : Nat) (u : QueueUser) :
    (widenStep now u).tier = u.tier := by
  unfold widenStep
  dsimp only
  split_ifs <;> rfl

/-- The spec-derived stage of a user is unchanged by `widenStep` (it only
reads `joinedAt` and `tier`). -/
theorem specStage_widenStep (t t' : Nat) (u : QueueUser) :
    specStage t (widenStep t' u) = specStage t u := by
  unfold specStage
  rw [widenStep_joinedAt, widenStep_tier]

/-- Arithmetic characterization of the stage computed by `widenStep`. -/
theorem widenStep_stage_eq (now : Nat) (u : QueueUser) :
    (widenStep now u).widenStage =
      if 5000 < now - u.joinedAt ∧ u.widenStage = 0 then
        (if 10000 < now - u.joinedAt ∧ u.tier ≠ Tier.DIAMOND then 2 else 1)
      else if 10000 < now - u.joinedAt ∧ u.widenStage = 1 ∧
          u.tier ≠ Tier.DIAMOND then 2
      else u.widenStage := by
  unfold widenStep
  dsimp only
  split_ifs <;> simp_all

/-- One `widenStep` at a later time carries a spec-conforming stage to the
spec-derived stage at the new time. -/
theorem widenStep_specStage (t t' : Nat) (u : QueueUser)
    (h : u.widenStage = specStage t u) (htt' : t ≤ t') :
    (widenStep t' u).widenStage = specStage t' u := by
  have hmono : t - u.joinedAt ≤ t' - u.joinedAt := Nat.sub_le_sub_right htt' _
  rw [widenStep_stage_eq]
  unfold specStage at h ⊢
  by_cases hd : u.tier = Tier.DIAMOND <;>
    simp only [hd, ne_eq, not_true_eq_false, not_false_eq_true,
      and_true, and_false, if_true, if_false] at h ⊢ <;>
    split_ifs at h ⊢ <;> omega

/-- Folding `widenStep` over a chain of nondecreasing tick times carries a
spec-conforming stage to the spec-derived stage at the last time. -/
theorem stageAfterTicks_spec : ∀ (ts : List Nat) (u : QueueUser) (t0 : Nat),
    u.widenStage = specStage t0 u → List.Chain (· ≤ ·) t0 ts →
    (stageAfterTicks u ts).widenStage = specStage (ts.getLastD t0) u := by
  intro ts
  induction ts with
  | nil => intro u t0 h _; exact h
  | cons t rest ih =>
    intro u t0 h hchain
    cases hchain with
    | cons htt hrest =>
      have hstep : (widenStep t u).widenStage = specStage t (widenStep t u) := by
        rw [widenStep_specStage t0 t u h htt, specStage_widenStep]
      have := ih (widenStep t u) t hstep hrest
      rw [List.getLastD_cons]
      simpa [stageAfterTicks, specStage_widenStep] using this

/-- For a DIAMOND user, `widenStep` never reaches stage 2. -/
theorem widenStep_diamond (now : Nat) (u : QueueUser)
    (hd : u.tier = Tier.DIAMOND) (h : u.widenStage ≠ 2) :
    (widenStep now u).widenStage ≠ 2 := by
  unfold widenStep
  dsimp only
  split_ifs <;> simp_all

/-- `getLastD` of a list ending in `a` is `a`. -/
theorem getLastD_append_single (l : List Nat) (a d : Nat) :
    (l ++ [a]).getLastD d = a := by
  induction l generalizing d with
  | nil => rfl
  | cons x xs ih => rw [List.cons_append, List.getLastD_cons, ih]

/-- A DIAMOND user whose stage is not 2 never reaches stage 2 over any
sequence of ticks. -/
theorem stageAfterTicks_diamond : ∀ (ts : List Nat) (u : QueueUser),
    u.tier = Tier.DIAMOND → u.widenStage ≠ 2 →
    (stageAfterTicks u ts).widenStage ≠ 2 := by
  intro ts
  induction ts with
  | nil => intro u _ h; exact h
  | cons t rest ih =>
    intro u hd h
    exact ih (widenStep t u) (by rw [widenStep_tier]; exact hd)
      (widenStep_diamond t u hd h)

/-- C5: a user who joined with `widenStage = 0` and is observed by ticks
at nondecreasing times ending at `t` holds exactly the spec-derived
stage at `t`: 0 while the wait is at most 5000 ms, 1 once it exceeds
5000 ms, 2 once it exceeds 10000 ms unless the tier is DIAMOND; and a
DIAMOND user never reaches stage 2 over any tick sequence. -/
theorem tick_widenStage_spec (u : QueueUser) (ts : List Nat) (t : Nat)
    (hu : u.widenStage = 0) (hs : List.Sorted (· ≤ ·) (ts ++ [t])) :
    (stageAfterTicks u (ts ++ [t])).widenStage = specStage t u ∧
    (u.tier = Tier.DIAMOND →
      ∀ ts', (stageAfterTicks u ts').widenStage ≠ 2) := by
  constructor
  · have hchain' : List.Chain' (· ≤ ·) (ts ++ [t]) :=
      List.chain'_iff_pairwise.mpr hs
    have hchain : List.Chain (· ≤ ·) 0 (ts ++ [t]) := by
      cases hlist : ts ++ [t] with
      | nil => exact absurd hlist (by simp)
      | cons a l =>
        rw [hlist] at hchain'
        exact List.Chain.cons (Nat.zero_le a) hchain'
    have h0 : u.widenStage = specStage 0 u := by
      unfold specStage
      simp [hu, Nat.zero_sub]
    have hmain := stageAfterTicks_spec (ts ++ [t]) u 0 h0 hchain
    rwa [getLastD_append_single] at hmain
  · intro hd ts'
    exact stageAfterTicks_diamond ts' u hd (by omega)

/-- Sample FREE female user with no preferences who waits unmatched
(spec scenario 4). -/
def ginaU : QueueUser :=
  { socketId := "sock_gina", uid := "gina", gender := Gender.female,
    location := none, tier := Tier.FREE, mode := Mode.random,
    preferences := { gender := none, location := none },
    joinedAt := 0, widenStage := 0 }

/-- Witness for C5: `gina` (joined at 0, stage 0) observed by ticks at
6000 ms and 12000 ms ends at the spec-derived stage for 12000 ms. -/
theorem tick_widenStage_spec_witness :
    (stageAfterTicks ginaU ([6000] ++ [12000])).widenStage =
        specStage 12000 ginaU ∧
    (ginaU.tier = Tier.DIAMOND →
      ∀ ts', (stageAfterTicks ginaU ts').widenStage ≠ 2) :=
  tick_widenStage_spec ginaU [6000] 12000 (by rfl) (by decide)

/-- Sample DIAMOND female user located in "IN" who also prefers location
"IN" (spec scenario 2). -/
def carolU : QueueUser :=
  { socketId := "sock_carol", uid := "carol", gender := Gender.female,
    location := some "IN", tier := Tier.DIAMOND, mode := Mode.random,
    preferences := { gender := none, location := some "IN" },
    joinedAt := 0, widenStage := 0 }

/-- Sample FREE male user located in "US" with no preferences (spec
scenario 2). -/
def danU : QueueUser :=
  { socketId := "sock_dan", uid := "dan", gender := Gender.male,
    location := some "US", tier := Tier.FREE, mode := Mode.random,
    preferences := { gender := none, location := none },
    joinedAt := 0, widenStage := 0 }

/-- C2 (code bug): `findMatch` pairs `dan` (located "US") with candidate
`carol` whose location preference "IN" is set and whose `widenStage` is 0,
yet `dan`'s location differs from `carol`'s preference — the candidate-side
check at QueueService.ts line 117 compares the candidate's own location
against the candidate's own preference instead of the user's location, so
it never constrains the user. -/
theorem candidate_location_check_bug :
    findMatchResult (fun _ => true) { male := [], female := [carolU] } danU
        = some carolU ∧
    carolU.preferences.location = some "IN" ∧
    carolU.widenStage < 1 ∧
    danU.location ≠ carolU.preferences.location :=
  ⟨rfl, rfl, by decide, by decide⟩

/-- The record update `{ u with mode := m }`. -/
def setMode (u : QueueUser) (m : Mode) : QueueUser := { u with mode := m }

/-- C3 (amended): the candidate filter of `findMatch` never reads either
user's `mode`, and neither does the target-gender computation, so pair
selection is entirely mode-blind. -/
theorem findMatch_ignores_mode (live : String → Bool) (u c : QueueUser)
    (tg : Option Gender) (m m' : Mode) :
    candidateOk live (setMode u m) tg (setMode c m') =
        candidateOk live u tg c ∧
    userTargetGender (setMode u m) = userTargetGender u :=
  ⟨rfl, rfl⟩

/-- Sample FREE female user in `random` mode. -/
def eveR : QueueUser :=
  { socketId := "sock_eve", uid := "eve", gender := Gender.female,
    location := none, tier := Tier.FREE, mode := Mode.random,
    preferences := { gender := none, location := none },
    joinedAt := 0, widenStage := 0 }

/-- Sample FREE male user in `video` mode. -/
def frankV : QueueUser :=
  { socketId := "sock_frank", uid := "frank", gender := Gender.male,
    location := none, tier := Tier.FREE, mode := Mode.video,
    preferences := { gender := none, location := none },
    joinedAt := 0, widenStage := 0 }

/-- Counterexample to C3: `eve` (mode `random`) is matched with `frank`
(mode `video`) — `findMatch` performs no mode comparison. -/
theorem findMatch_mode_counterexample :
    findMatchResult (fun _ => true) { male := [frankV], female := [] } eveR
        = some frankV ∧
    eveR.mode ≠ frankV.mode :=
  ⟨rfl, by decide⟩

/-- Counterexample to C4: `gina`, waiting 30001 ms, is REMOVED from the
queue by the tick (she does not remain to seek a real partner), and the
emitted signal is `no_match_found {reason: "timeout", waitedMs}`, with no
bot-mode flag persisted anywhere. -/
theorem widening_timeout_counterexample :
    (processWidening 30001 (fun _ => true)
        { male := [], female := [ginaU] }).fst.female = [] ∧
    (processWidening 30001 (fun _ => true)
        { male := [], female := [ginaU] }).snd =
      [QueueEvent.noMatchFound "sock_gina" "timeout" 30001] :=
  ⟨rfl, rfl⟩

/-- `widenStep` never changes `socketId`. -/
theorem widenStep_socketId (now : Nat) (u : QueueUser) :
    (widenStep now u).socketId = u.socketId := by
  unfold widenStep
  dsimp only
  split_ifs <;> rfl

/-- A member of a phase snapshot that is timed out and live contributes
its `no_match_found` event to that phase's emissions. -/
theorem phaseEvents_mem (now : Nat) (live : String → Bool)
    (l : List QueueUser) (v : QueueUser)
    (hv : v ∈ l) (ht : timedOut now v = true) (hl : live v.socketId = true) :
    QueueEvent.noMatchFound v.socketId "timeout" (now - v.joinedAt) ∈
      phaseEvents now live l :=
  List.mem_map.mpr ⟨v, List.mem_filter.mpr ⟨hv, by rw [ht, hl]; rfl⟩, rfl⟩

/-- A timed-out member of a phase snapshot puts its socket id among that
phase's removals. -/
theorem mem_remIds (now : Nat) (l : List QueueUser) (u : QueueUser)
    (hu : u ∈ l) (ht : timedOut now u = true) :
    u.socketId ∈ remIds now l :=
  List.mem_map.mpr ⟨u, List.mem_filter.mpr ⟨hu, ht⟩, rfl⟩

/-- A socket id removed by either phase of `processWidening` appears in
neither final partition. -/
theorem processWidening_removes_sid (now : Nat) (live : String → Bool)
    (q : QueueState) (sid : String)
    (hs : sid ∈ remMale now q ++ remFemale now q) :
    ((processWidening now live q).fst.male.all
        (fun v => v.socketId ≠ sid)) = true ∧
    ((processWidening now live q).fst.female.all
        (fun v => v.socketId ≠ sid)) = true := by
  constructor <;>
  · rw [List.all_eq_true]
    intro v hv
    unfold processWidening at hv
    dsimp only at hv
    rcases List.mem_filter.mp hv with ⟨_, hv2⟩
    simp only [Bool.not_eq_true', List.elem_eq_mem,
      decide_eq_false_iff_not] at hv2
    simp only [decide_eq_true_eq]
    intro hveq
    exact hv2 (hveq ▸ hs)

/-- C4 (amended): a queued user in EITHER partition whose wait exceeds
30 s is removed from both partitions by the same tick (no entry carrying
their socket id remains), so the signal cannot repeat on later ticks;
and if their socket is live, that tick emits a
`no_match_found {reason: "timeout", waitedMs}` event with
`waitedMs > 30000` to their socket. -/
theorem widening_timeout_removes (now : Nat) (live : String → Bool)
    (q : QueueState) (u : QueueUser)
    (hmem : u ∈ q.male ∨ u ∈ q.female)
    (htime : timedOut now u = true)
    (hlive : live u.socketId = true) :
    (∃ w, 30000 < w ∧
      QueueEvent.noMatchFound u.socketId "timeout" w ∈
        (processWidening now live q).snd) ∧
    ((processWidening now live q).fst.male.all
        (fun v => v.socketId ≠ u.socketId)) = true ∧
    ((processWidening now live q).fst.female.all
        (fun v => v.socketId ≠ u.socketId)) = true := by
  have htimeW : timedOut now (widenStep now u) = true := by
    unfold timedOut at htime ⊢
    rwa [widenStep_joinedAt]
  cases hmem with
  | inl hmale =>
    have hMw : widenStep now u ∈ maleWidened now q :=
      List.mem_map.mpr ⟨u, hmale, rfl⟩
    have hremM : u.socketId ∈ remMale now q := by
      have hm := mem_remIds now (maleWidened now q) (widenStep now u)
        hMw htimeW
      rwa [widenStep_socketId] at hm
    have hrem := processWidening_removes_sid now live q u.socketId
      (List.mem_append.mpr (Or.inl hremM))
    refine ⟨⟨now - u.joinedAt, by simpa [timedOut] using htime, ?_⟩,
      hrem.1, hrem.2⟩
    have hev := phaseEvents_mem now live (maleWidened now q)
      (widenStep now u) hMw htimeW (by rwa [widenStep_socketId])
    rw [widenStep_socketId, widenStep_joinedAt] at hev
    unfold processWidening
    dsimp only
    exact List.mem_append.mpr (Or.inl hev)
  | inr hfemale =>
    by_cases hA : u.socketId ∈ remMale now q
    · have hrem := processWidening_removes_sid now live q u.socketId
        (List.mem_append.mpr (Or.inl hA))
      have hA' := hA
      unfold remMale remIds at hA'
      obtain ⟨v, hvfil, hveq⟩ := List.mem_map.mp hA'
      obtain ⟨hvW, hvt⟩ := List.mem_filter.mp hvfil
      refine ⟨⟨now - v.joinedAt, by simpa [timedOut] using hvt, ?_⟩,
        hrem.1, hrem.2⟩
      have hev := phaseEvents_mem now live (maleWidened now q) v hvW hvt
        (by rw [hveq]; exact hlive)
      rw [hveq] at hev
      unfold processWidening
      dsimp only
      exact List.mem_append.mpr (Or.inl hev)
    · have hmemW : widenStep now u ∈ femaleWidened now q := by
        unfold femaleWidened femaleAfterMale
        exact List.mem_map.mpr
          ⟨u, List.mem_filter.mpr ⟨hfemale, by simp [hA]⟩, rfl⟩
      have hremF : u.socketId ∈ remFemale now q := by
        have hm := mem_remIds now (femaleWidened now q) (widenStep now u)
          hmemW htimeW
        rwa [widenStep_socketId] at hm
      have hrem := processWidening_removes_sid now live q u.socketId
        (List.mem_append.mpr (Or.inr hremF))
      refine ⟨⟨now - u.joinedAt, by simpa [timedOut] using htime, ?_⟩,
        hrem.1, hrem.2⟩
      have hev := phaseEvents_mem now live (femaleWidened now q)
        (widenStep now u) hmemW htimeW (by rwa [widenStep_socketId])
      rw [widenStep_socketId, widenStep_joinedAt] at hev
      unfold processWidening
      dsimp only
      exact List.mem_append.mpr (Or.inr hev)

/-- Witness for the amended C4: at 30001 ms, `gina`'s tick emits the
`no_match_found` timeout event to her live socket and leaves no entry
with her socket in either partition. -/
theorem widening_timeout_removes_witness :
    (∃ w, 30000 < w ∧
      QueueEvent.noMatchFound ginaU.socketId "timeout" w ∈
        (processWidening 30001 (fun _ => true)
          { male := [], female := [ginaU] }).snd) ∧
    ((processWidening 30001 (fun _ => true)
        { male := [], female := [ginaU] }).fst.male.all
      (fun v => v.socketId ≠ ginaU.socketId)) = true ∧
    ((processWidening 30001 (fun _ => true)
        { male := [], female := [ginaU] }).fst.female.all
      (fun v => v.socketId ≠ ginaU.socketId)) = true :=
  widening_timeout_removes 30001 (fun _ => true)
    { male := [], female := [ginaU] } ginaU (Or.inr (by simp))
    (by decide) rfl

/-- Counterexample to C6: a `random`-mode room's `expectedServices` does
NOT include `video` (it is `["game"]`), and a `video`-mode room's list is
`["game", "video"]` — `game` is always included, `video` only in video
mode, the opposite of the claimed composition. -/
theorem expectedServices_counterexample :
    (mkExpectedServices Mode.random).contains "video" = false ∧
    mkExpectedServices Mode.video = ["game", "video"] :=
  ⟨rfl, rfl⟩

/-- C6 (amended): `expectedServices` always contains `game` and contains
`video` exactly when the mode is `video`; a room whose `expectedServices`
came from `createRoom` finalizes when all listed services are ready, and
its finalization never waits on a service outside the list (in `random`
mode the check ignores `videoReady` entirely). -/
theorem expectedServices_spec (m : Mode) (g v : Bool) (r : RoomData)
    (hr : r.expectedServices = mkExpectedServices m)
    (hg : r.gameReady = g) (hv : r.videoReady = v) :
    "game" ∈ mkExpectedServices m ∧
    ("video" ∈ mkExpectedServices m ↔ m = Mode.video) ∧
    allExpectedReady r = (g && (if m = Mode.video then v else true)) := by
  cases m <;>
    simp_all [mkExpectedServices, allExpectedReady, List.contains]

/-- A finished `video`-mode room used to witness C6. -/
def hankIvyRoom : RoomData :=
  { roomId := "room_hank_ivy", playerA := { uid := "hank", socketId := "sh" },
    playerB := { uid := "ivy", socketId := "si" },
    gameReady := true, videoReady := true,
    expectedServices := mkExpectedServices Mode.video, createdAt := 0 }

/-- Witness for the amended C6 at a concrete video-mode room with both
services ready. -/
theorem expectedServices_spec_witness :
    "game" ∈ mkExpectedServices Mode.video ∧
    ("video" ∈ mkExpectedServices Mode.video ↔ Mode.video = Mode.video) ∧
    allExpectedReady hankIvyRoom =
      (true && (if Mode.video = Mode.video then true else true)) :=
  expectedServices_spec Mode.video true true hankIvyRoom rfl rfl rfl

/-- A state with an established `jack`/`kate` session in which `kate`'s
currently registered socket is `"sock_kate_2"`. -/
def jackKateState : SessionState :=
  { activeRooms := []
    sessionCache := fun u =>
      if u = "jack" then
        some { roomId := "room_jk", opponentId := "kate", role := Role.A }
      else none
    socketToUid := fun _ => none
    uidToSocket := fun u =>
      if u = "kate" then some "sock_kate_2" else none }

/-- Counterexample to C7: `jack`'s reconnection `match_found` carries
`opponentId = "kate"` — the opponent's uid taken from the stored session
entry — even though `kate`'s currently registered socket is
`"sock_kate_2"`, and the `opponent_reconnected` notice carries only a
fixed message, not the rejoiner's new socket id. -/
theorem reconnection_counterexample :
    (handleReconnection jackKateState "sock_jack_2" "jack").snd =
      [SessionEvent.matchFound "sock_jack_2" "room_jk" Role.A "kate" none
         true true,
       SessionEvent.opponentReconnected "sock_kate_2"
         "Opponent is back online"] ∧
    jackKateState.uidToSocket "kate" = some "sock_kate_2" ∧
    ("kate" : String) ≠ "sock_kate_2" :=
  ⟨rfl, rfl, by decide⟩

/-- C7 (amended): for a uid with an established session,
`handleReconnection` emits `match_found` with `isReconnection = true`
whose `opponentId` is the opponent's uid from the stored session entry,
followed by an `opponent_reconnected` notice with a fixed message to each
currently registered socket of the opponent; the state is unchanged. -/
theorem reconnection_session_branch (st : SessionState) (sock uid : String)
    (session : SessionData) (h : st.sessionCache uid = some session) :
    (handleReconnection st sock uid).snd =
      SessionEvent.matchFound sock session.roomId session.role
          session.opponentId none (session.role == Role.A) true ::
        (getSocketIdsForUser st session.opponentId).map
          (fun sid => SessionEvent.opponentReconnected sid
            "Opponent is back online") ∧
    (handleReconnection st sock uid).fst = st := by
  unfold handleReconnection
  rw [h]
  exact ⟨rfl, rfl⟩

/-- Witness for the amended C7 at the `jack`/`kate` state. -/
theorem reconnection_session_branch_witness :
    (handleReconnection jackKateState "sock_jack_2" "jack").snd =
      SessionEvent.matchFound "sock_jack_2" "room_jk" Role.A "kate" none
          (Role.A == Role.A) true ::
        (getSocketIdsForUser jackKateState "kate").map
          (fun sid => SessionEvent.opponentReconnected sid
            "Opponent is back online") ∧
    (handleReconnection jackKateState "sock_jack_2" "jack").fst =
      jackKateState :=
  reconnection_session_branch jackKateState "sock_jack_2" "jack"
    { roomId := "room_jk", opponentId := "kate", role := Role.A } rfl

/-- A state with one registered user `uSelf` on socket `sSelf`, used to
exercise the loopback paths of the six signaling handlers. -/
def loopbackState : SessionState :=
  { activeRooms := []
    sessionCache := fun _ => none
    socketToUid := fun s => if s = "sSelf" then some "uSelf" else none
    uidToSocket := fun u => if u = "uSelf" then some "sSelf" else none }

/-- C9 (code bug): on a frame whose `targetUid` equals the sender's own
uid and whose `to` is absent, five of the six handlers drop it silently,
but the `video-answer` handler's priority branch (index.ts lines 298-304)
runs BEFORE its loopback check and relays the frame back to the sender's
own registered socket. -/
theorem videoAnswer_loopback_bug :
    handleOffer loopbackState "sSelf" "uSelf"
        { toSocket := none, targetUid := some "uSelf" } = [] ∧
    handleAnswer loopbackState "sSelf" "uSelf"
        { toSocket := none, targetUid := some "uSelf" } = [] ∧
    handleIceCandidate loopbackState "sSelf" "uSelf"
        { toSocket := none, targetUid := some "uSelf" } = [] ∧
    handleVideoOffer loopbackState "sSelf" "uSelf"
        { toSocket := none, targetUid := some "uSelf" } = [] ∧
    handleVideoIceCandidate loopbackState "sSelf" "uSelf"
        { toSocket := none, targetUid := some "uSelf" } = [] ∧
    handleVideoAnswer loopbackState "sSelf" "uSelf"
        { toSocket := none, targetUid := some "uSelf" } =
      [{ kind := SigKind.videoAnswer, target := "sSelf",
         fromSocket := "sSelf", fromUid := none }] :=
  ⟨rfl, rfl, rfl, rfl, rfl, rfl⟩

/-- A state where `u10`'s session is established but the requesting
socket `s_old` is an older tab: the registry currently binds `u10` to
`s_new`. -/
def oldTabState : SessionState :=
  { activeRooms := []
    sessionCache := fun u =>
      if u = "u10" then
        some { roomId := "room_x", opponentId := "opp10", role := Role.A }
      else none
    socketToUid := fun s =>
      if s = "s_old" ∨ s = "s_new" then some "u10" else none
    uidToSocket := fun u =>
      if u = "u10" then some "s_new"
      else if u = "opp10" then some "s_opp" else none }

/-- Counterexample to C10: `handleSkipMatch("s_old")` notifies only the
currently registered sockets `s_new` and `s_opp`; the requesting socket
`s_old` receives no `match_skipped` acknowledgement. -/
theorem skip_requester_counterexample :
    (handleSkipMatch oldTabState "s_old").snd =
      [SessionEvent.matchSkipped "s_new",
       SessionEvent.matchSkipped "s_opp"] ∧
    SessionEvent.matchSkipped "s_old" ∉
      (handleSkipMatch oldTabState "s_old").snd :=
  ⟨rfl, by decide⟩

/-- C10 (amended): when the requesting socket's uid has no established
session and no pending room is hit by the socket or its uid,
`handleSkipMatch` acknowledges the requesting socket itself with exactly
one `match_skipped`; when a session is found instead, the notifications
go to the currently registered sockets of the two parties, which need not
include the requester. -/
theorem skip_fallback_acknowledges (st : SessionState) (socketId : String)
    (hsess : ∀ uid, st.socketToUid socketId = some uid →
      st.sessionCache uid = none)
    (hroom : st.activeRooms.find?
      (skipRoomHit socketId (st.socketToUid socketId)) = none) :
    (handleSkipMatch st socketId).snd =
      [SessionEvent.matchSkipped socketId] := by
  have hpart : skipSessionPart st socketId = (st, [], false) := by
    unfold skipSessionPart
    cases hu : st.socketToUid socketId with
    | none => rfl
    | some uid =>
      dsimp only
      rw [hsess uid hu]
  unfold handleSkipMatch
  rw [hpart]
  dsimp only
  rw [hroom]
  rfl

/-- Witness for the amended C10: on the empty state the requester is
acknowledged. -/
theorem skip_fallback_acknowledges_witness :
    (handleSkipMatch emptyState "s_lonely").snd =
      [SessionEvent.matchSkipped "s_lonely"] :=
  skip_fallback_acknowledges emptyState "s_lonely"
    (fun _ h => by exact absurd h (by simp [emptyState])) rfl

/-- Counterexample to C8's universal guarantee: in the trace
`reg s u1; reg s u2; unreg s` the socket `s` has unregistered, so the
spec leaves `u1` with no not-yet-unregistered registered socket, yet the
code still binds `u1 → s` (the disconnect resolves `s` to `u2` and only
clears `u2`'s reverse binding, leaving `u1`'s dangling). -/
theorem registry_guarantee_counterexample :
    (applyOps emptyState
        [RegOp.reg "s" "u1", RegOp.reg "s" "u2",
         RegOp.unreg "s"]).uidToSocket "u1" = some "s" ∧
    specBinding [RegOp.reg "s" "u1", RegOp.reg "s" "u2", RegOp.unreg "s"]
        "u1" = none :=
  ⟨rfl, rfl⟩

/-- Splitting `applyOps` over an append. -/
theorem applyOps_append (st : SessionState) :
    ∀ (ops ops' : List RegOp),
      applyOps st (ops ++ ops') = applyOps (applyOps st ops) ops' := by
  intro ops
  induction ops generalizing st with
  | nil => intro ops'; rfl
  | cons op rest ih =>
    intro ops'
    cases op <;> simp only [List.cons_append, applyOps] <;> exact ih _ _

/-- Splitting `specStacks` over an append. -/
theorem specStacks_append :
    ∀ (ops ops' : List RegOp) (st : String → List String),
      specStacks st (ops ++ ops') = specStacks (specStacks st ops) ops' := by
  intro ops
  induction ops with
  | nil => intro ops' st; rfl
  | cons op rest ih =>
    intro ops' st
    cases op <;> simp only [List.cons_append, specStacks] <;> exact ih _ _

/-- The head of a list survives filtering by a predicate it satisfies. -/
theorem head?_filter_ne (l : List String) (x y : String)
    (h : l.head? = some x) (hne : x ≠ y) :
    (l.filter (· ≠ y)).head? = some x := by
  cases l with
  | nil => simp at h
  | cons a t =>
    rw [List.head?_cons, Option.some_inj] at h
    subst h
    simp [List.filter_cons, hne]

/-- One `reg` step of the spec's stacks. -/
theorem specStacks_reg (st : String → List String) (s0 u0 u : String) :
    specStacks st [RegOp.reg s0 u0] u =
      if u = u0 then s0 :: (st u0).filter (· ≠ s0) else st u := rfl

/-- One `unreg` step of the spec's stacks. -/
theorem specStacks_unreg (st : String → List String) (s0 u : String) :
    specStacks st [RegOp.unreg s0] u = (st u).filter (· ≠ s0) := rfl

/-- The per-trace invariant relating the code's socket registry to the
spec's registration stacks: any reverse binding `u → s` is mirrored by
`s` at the head of `u`'s stack of live registrations, the forward
binding `s → u` is present, and `reg s u` occurs in the trace. -/
def regInv (ops : List RegOp) (st : SessionState) : Prop :=
  ∀ u s, st.uidToSocket u = some s →
    (specStacks (fun _ => []) ops u).head? = some s ∧
    st.socketToUid s = some u ∧
    RegOp.reg s u ∈ ops

/-- A well-formed trace keeps the code's registry in line with the
spec's registration stacks. -/
theorem regInv_holds : ∀ ops : List RegOp, wellFormedOps ops →
    regInv ops (applyOps emptyState ops) := by
  intro ops
  induction ops using List.reverseRecOn with
  | nil =>
    intro _ u s h
    exact absurd h (by simp [applyOps, emptyState])
  | append_singleton ops op ih =>
    intro hwf u s h
    have hwf' : wellFormedOps ops := fun s' u1 u2 h1 h2 =>
      hwf s' u1 u2 (List.mem_append.mpr (Or.inl h1))
        (List.mem_append.mpr (Or.inl h2))
    have hx := ih hwf'
    rw [applyOps_append] at h
    rw [specStacks_append, applyOps_append]
    set st := applyOps emptyState ops with hst
    cases op with
    | reg s0 u0 =>
      have h' : (if u = u0 then some s0 else st.uidToSocket u) = some s := h
      rw [specStacks_reg]
      by_cases hu : u = u0
      · rw [if_pos hu] at h'
        have hs : s = s0 := (Option.some_inj.mp h').symm
        refine ⟨by rw [if_pos hu, hs]; rfl, ?_, ?_⟩
        · show (registerSocket st s0 u0).socketToUid s = some u
          rw [hs, hu]
          simp [registerSocket, mapSet]
        · rw [hs, hu]
          exact List.mem_append.mpr (Or.inr (List.mem_singleton.mpr rfl))
      · rw [if_neg hu] at h'
        obtain ⟨hhead, hfwd, hmem⟩ := hx u s h'
        have hss0 : s ≠ s0 := by
          intro hss
          subst hss
          exact hu (hwf s u u0 (List.mem_append.mpr (Or.inl hmem))
            (List.mem_append.mpr (Or.inr (List.mem_singleton.mpr rfl))))
        refine ⟨by rw [if_neg hu]; exact hhead, ?_,
          List.mem_append.mpr (Or.inl hmem)⟩
        show mapSet st.socketToUid s0 u0 s = some u
        rw [mapSet, if_neg hss0]
        exact hfwd
    | unreg s0 =>
      have h' : (handleDisconnect st s0).uidToSocket u = some s := h
      rw [specStacks_unreg]
      show _ ∧ (handleDisconnect st s0).socketToUid s = some u ∧ _
      cases hfwd0 : st.socketToUid s0 with
      | none =>
        unfold handleDisconnect at h' ⊢
        rw [hfwd0] at h' ⊢
        obtain ⟨hhead, hfwd, hmem⟩ := hx u s h'
        have hss0 : s ≠ s0 := by
          intro hss
          subst hss
          rw [hfwd] at hfwd0
          exact Option.noConfusion hfwd0
        exact ⟨head?_filter_ne _ s s0 hhead hss0, hfwd,
          List.mem_append.mpr (Or.inl hmem)⟩
      | some w =>
        unfold handleDisconnect at h' ⊢
        rw [hfwd0] at h' ⊢
        dsimp only at h' ⊢
        by_cases hrev : st.uidToSocket w = some s0
        · rw [if_pos hrev] at h'
          have huw : u ≠ w := by
            intro huw
            subst huw
            simp [mapDel] at h'
          have hold : st.uidToSocket u = some s := by
            have h'' : (if u = w then none else st.uidToSocket u) = some s := h'
            rwa [if_neg huw] at h''
          obtain ⟨hhead, hfwd, hmem⟩ := hx u s hold
          have hss0 : s ≠ s0 := by
            intro hss
            subst hss
            rw [hfwd] at hfwd0
            exact huw (Option.some_inj.mp hfwd0)
          refine ⟨head?_filter_ne _ s s0 hhead hss0, ?_,
            List.mem_append.mpr (Or.inl hmem)⟩
          show mapDel st.socketToUid s0 s = some u
          rw [mapDel, if_neg hss0]
          exact hfwd
        · rw [if_neg hrev] at h'
          obtain ⟨hhead, hfwd, hmem⟩ := hx u s h'
          have hss0 : s ≠ s0 := by
            intro hss
            subst hss
            rw [hfwd] at hfwd0
            have huw : u = w := Option.some_inj.mp hfwd0
            subst huw
            exact hrev h'
          refine ⟨head?_filter_ne _ s s0 hhead hss0, ?_,
            List.mem_append.mpr (Or.inl hmem)⟩
          show mapDel st.socketToUid s0 s = some u
          rw [mapDel, if_neg hss0]
          exact hfwd

/-- C8 (amended): the quoted three-operation law holds as stated
(`reg s1 u; reg s2 u; unreg s1` leaves `u → s2`); at most one socket id
is bound per uid (the reverse map stores a single id); and for any trace
in which no socket id is ever registered under two different uids, every
bound socket id is the most recently registered one for that uid not yet
unregistered (the head of the spec's stack of live registrations). -/
theorem registry_newest_wins (ops : List RegOp) (s1 s2 u0 uid s : String)
    (hne : s1 ≠ s2) (hwf : wellFormedOps ops)
    (hbind : (applyOps emptyState ops).uidToSocket uid = some s) :
    (applyOps emptyState
        [RegOp.reg s1 u0, RegOp.reg s2 u0,
         RegOp.unreg s1]).uidToSocket u0 = some s2 ∧
    specBinding ops uid = some s := by
  constructor
  · show (handleDisconnect
        (registerSocket (registerSocket emptyState s1 u0) s2 u0)
        s1).uidToSocket u0 = some s2
    have hrev : (registerSocket (registerSocket emptyState s1 u0)
        s2 u0).uidToSocket u0 = some s2 := by
      simp [registerSocket, mapSet, emptyState]
    have hfs : (registerSocket (registerSocket emptyState s1 u0)
        s2 u0).socketToUid s1 = some u0 := by
      simp [registerSocket, mapSet, emptyState, hne]
    unfold handleDisconnect
    rw [hfs]
    dsimp only
    rw [hrev, if_neg (by simp [Ne.symm hne])]
    exact hrev
  · exact (regInv_holds ops hwf uid s hbind).1

/-- Witness for the amended C8: the three-op law at `c`, `d`, `w` and the
spec conformance of the one-registration trace `reg a x`. -/
theorem registry_newest_wins_witness :
    (applyOps emptyState
        [RegOp.reg "c" "w", RegOp.reg "d" "w",
         RegOp.unreg "c"]).uidToSocket "w" = some "d" ∧
    specBinding [RegOp.reg "a" "x"] "x" = some "a" :=
  registry_newest_wins [RegOp.reg "a" "x"] "c" "d" "w" "x" "a"
    (by decide)
    (by
      intro s u u' h1 h2
      simp only [List.mem_singleton, RegOp.reg.injEq] at h1 h2
      rw [h1.2, h2.2])
    rfl

end Matchmaking
